import Mathlib

/-!
Verification development for `monitor.py` of the aquatics-page-monitor
repository.  The Python source is shallowly embedded: pure helpers become
Lean functions, the browser page is modelled as explicit state records,
and Python's control flow (including the exception paths actually taken)
is translated into explicit branching.
-/

namespace Monitor

/-! ## Data model

A session record `{"dates": [...], "times": [...]}` and an item
`{"title": ..., "url": ..., "sessions": [...]}` as produced by
`get_items_with_sessions` / consumed by `diff_items`. -/

structure Session where
  dates : List String
  times : List String
deriving DecidableEq

structure Item where
  title : String
  url : Option String
  sessions : List Session
deriving DecidableEq

/-- `TARGET_TITLES` from monitor.py (lines 12-15). -/
def TARGET_TITLES : List String :=
  ["Swim Lesson Level 1: Baby Pups & Parent Seals",
   "Swim Lesson Level 2: Sea Horses"]

/-! ## Token extraction (monitor.py lines 18-33)

The four compiled regexes are hand-compiled into backtracking matchers in
continuation-passing style.  A matcher receives the suffix of the input at
the attempted position and a continuation; greedy quantifiers try the
longer consumption first, exactly as Python's `re` backtracks.  `findall`
is the usual left-to-right non-overlapping scan. -/

/-- Python's word character class `\w` (ASCII fragment). -/
def isWordChar (c : Char) : Bool := c.isAlphanum || c = '_'

/-- Python's whitespace class `\s` (ASCII fragment). -/
def isSpaceChar (c : Char) : Bool :=
  c = ' ' || c = '\t' || c = '\n' || c = '\r' || c = '\x0b' || c = '\x0c'

/-- The character class `[-–]`: hyphen or en-dash. -/
def isDashChar (c : Char) : Bool := c = '-' || c = '–'

/-- A continuation-passing matcher over the remaining input. -/
abbrev Cont := List Char → Option (List Char)

/-- Match one character satisfying `p`, then continue. -/
def pChar (p : Char → Bool) (k : Cont) : Cont := fun cs =>
  match cs with
  | [] => none
  | c :: rest => if p c then k rest else none

/-- `\d{1,2}`, greedy: try two digits first, then one. -/
def pDigit12 (k : Cont) : Cont :=
  pChar Char.isDigit (fun cs => (pChar Char.isDigit k cs) <|> k cs)

/-- `\d{2}`: exactly two digits. -/
def pDigit2 (k : Cont) : Cont := pChar Char.isDigit (pChar Char.isDigit k)

/-- `\s*`, greedy with backtracking. -/
def pSpacesStar (k : Cont) : Cont
  | [] => k []
  | c :: rest =>
    if isSpaceChar c then (pSpacesStar k rest) <|> k (c :: rest)
    else k (c :: rest)

/-- `[AP]M` under `re.I`: one of A/a/P/p followed by M/m. -/
def pAmPm (k : Cont) : Cont :=
  pChar (fun c => c = 'A' || c = 'a' || c = 'P' || c = 'p')
    (pChar (fun c => c = 'M' || c = 'm') k)

/-- Trailing `\b` after a word character: succeed iff the next character
is absent or not a word character. -/
def pEndBoundary : Cont := fun cs =>
  match cs with
  | [] => some []
  | c :: _ => if isWordChar c then none else some cs

/-- `DATE_SINGLE = \b\d{1,2}/\d{1,2}\b` (the leading `\b` is checked by
the scanner, since the first pattern character is a digit). -/
def matchDateSingle : Cont :=
  pDigit12 (pChar (· = '/') (pDigit12 pEndBoundary))

/-- `DATE_RANGE = \b\d{1,2}/\d{1,2}\s*[-–]\s*\d{1,2}/\d{1,2}\b`. -/
def matchDateRange : Cont :=
  pDigit12 (pChar (· = '/') (pDigit12 (pSpacesStar (pChar isDashChar
    (pSpacesStar (pDigit12 (pChar (· = '/') (pDigit12 pEndBoundary))))))))

/-- The sub-pattern `\d{1,2}:\d{2}\s*[AP]M` shared by both time regexes. -/
def pTimeToken (k : Cont) : Cont :=
  pDigit12 (pChar (· = ':') (pDigit2 (pSpacesStar (pAmPm k))))

/-- `TIME_SINGLE = \b\d{1,2}:\d{2}\s*[AP]M\b` under `re.I`. -/
def matchTimeSingle : Cont := pTimeToken pEndBoundary

/-- `TIME_RANGE = \b\d{1,2}:\d{2}\s*[AP]M\s*[-–]\s*\d{1,2}:\d{2}\s*[AP]M\b`. -/
def matchTimeRange : Cont :=
  pTimeToken (pSpacesStar (pChar isDashChar (pSpacesStar
    (pTimeToken pEndBoundary))))

/-- `re.findall` scan: try the matcher at each position (subject to the
leading `\b`, i.e. the previous character, if any, is not a word
character); on a match, record the consumed prefix and resume after it.
The `fuel` argument only forces structural recursion: every step strictly
shortens the character list, so fuel equal to the initial length is never
exhausted before the list is. -/
def scanAllFuel (m : Cont) : Nat → Option Char → List Char → List String
  | 0, _, _ => []
  | _, _, [] => []
  | fuel + 1, prev, c :: rest =>
    let bOk : Bool :=
      match prev with
      | none => true
      | some p => !isWordChar p
    match (if bOk then m (c :: rest) else none) with
    | some remaining =>
      if remaining.length < rest.length + 1 then
        let n := rest.length + 1 - remaining.length
        String.mk ((c :: rest).take n) ::
          scanAllFuel m fuel ((c :: rest).take n).getLast? remaining
      else
        scanAllFuel m fuel (some c) rest
    | none => scanAllFuel m fuel (some c) rest

/-- The scan entered at the start of the text. -/
def scanAll (m : Cont) (prev : Option Char) (cs : List Char) : List String :=
  scanAllFuel m cs.length prev cs

/-- `DATE_RANGE.findall(text)`. -/
def pyFindallDateRange (text : String) : List String :=
  scanAll matchDateRange none text.data

/-- `DATE_SINGLE.findall(text)`. -/
def pyFindallDateSingle (text : String) : List String :=
  scanAll matchDateSingle none text.data

/-- `TIME_RANGE.findall(text)`. -/
def pyFindallTimeRange (text : String) : List String :=
  scanAll matchTimeRange none text.data

/-- `TIME_SINGLE.findall(text)`. -/
def pyFindallTimeSingle (text : String) : List String :=
  scanAll matchTimeSingle none text.data

/-- Python's `sorted(set(l))` for a list of strings: deduplicate, then
sort lexicographically. -/
def pySortedSet (l : List String) : List String :=
  List.insertionSort (· ≤ ·) l.dedup

/-- `extract_dates_times` (monitor.py lines 26-33): range patterns first,
single-token patterns only when zero ranges matched; each result is
`sorted(set(...))`. -/
def extract_dates_times (text : String) : List String × List String :=
  let dates := pySortedSet (pyFindallDateRange text)
  let dates := if dates.isEmpty then pySortedSet (pyFindallDateSingle text) else dates
  let times := pySortedSet (pyFindallTimeRange text)
  let times := if times.isEmpty then pySortedSet (pyFindallTimeSingle text) else times
  (dates, times)

lemma pySortedSet_sorted_le (l : List String) :
    (pySortedSet l).Sorted (· ≤ ·) :=
  List.sorted_insertionSort _ _

lemma pySortedSet_nodup (l : List String) : (pySortedSet l).Nodup :=
  (List.perm_insertionSort _ _).nodup_iff.mpr (List.nodup_dedup l)

lemma pySortedSet_sorted_lt (l : List String) :
    (pySortedSet l).Sorted (· < ·) :=
  (pySortedSet_sorted_le l).lt_of_le (pySortedSet_nodup l)

lemma pySortedSet_eq_nil_iff (l : List String) : pySortedSet l = [] ↔ l = [] := by
  unfold pySortedSet
  constructor
  · intro h
    have hlen : l.dedup.length = 0 := by
      have := List.length_insertionSort (α := String) (· ≤ ·) l.dedup
      rw [h] at this
      simpa using this.symm
    have : l.dedup = [] := List.length_eq_zero.mp hlen
    exact (List.dedup_eq_nil l).mp this
  · intro h
    subst h
    rfl

lemma extract_dates_times_eq (text : String) :
    extract_dates_times text =
      (if (pySortedSet (pyFindallDateRange text)).isEmpty
         then pySortedSet (pyFindallDateSingle text)
         else pySortedSet (pyFindallDateRange text),
       if (pySortedSet (pyFindallTimeRange text)).isEmpty
         then pySortedSet (pyFindallTimeSingle text)
         else pySortedSet (pyFindallTimeRange text)) := rfl

lemma pySortedSet_isEmpty_iff (l : List String) :
    (pySortedSet l).isEmpty = true ↔ l = [] := by
  rw [List.isEmpty_iff]
  exact pySortedSet_eq_nil_iff l

/-- Claim C5: token extraction attempts the date-range pattern first and
falls back to single-date tokens only when zero ranges match, likewise
for time ranges before single times; consequently a text containing at
least one date range contributes no additional single-date matches, and
both returned token lists are deduplicated and lexicographically sorted
(strict sortedness expresses both at once). -/
theorem extract_dates_times_range_priority (text : String) :
    (pyFindallDateRange text ≠ [] →
      (extract_dates_times text).1 = pySortedSet (pyFindallDateRange text)) ∧
    (pyFindallDateRange text = [] →
      (extract_dates_times text).1 = pySortedSet (pyFindallDateSingle text)) ∧
    (pyFindallTimeRange text ≠ [] →
      (extract_dates_times text).2 = pySortedSet (pyFindallTimeRange text)) ∧
    (pyFindallTimeRange text = [] →
      (extract_dates_times text).2 = pySortedSet (pyFindallTimeSingle text)) ∧
    (extract_dates_times text).1.Sorted (· < ·) ∧
    (extract_dates_times text).2.Sorted (· < ·) := by
  have hemp : ∀ l : List String, l ≠ [] → (pySortedSet l).isEmpty = false := by
    intro l hl
    cases hb : (pySortedSet l).isEmpty
    · rfl
    · exact absurd ((pySortedSet_isEmpty_iff l).mp hb) hl
  refine ⟨fun h => ?_, fun h => ?_, fun h => ?_, fun h => ?_, ?_, ?_⟩
  · rw [extract_dates_times_eq]
    simp [hemp _ h]
  · rw [extract_dates_times_eq]
    simp [h, pySortedSet]
  · rw [extract_dates_times_eq]
    simp [hemp _ h]
  · rw [extract_dates_times_eq]
    simp [h, pySortedSet]
  · rw [extract_dates_times_eq]
    dsimp only
    split
    · exact pySortedSet_sorted_lt _
    · exact pySortedSet_sorted_lt _
  · rw [extract_dates_times_eq]
    dsimp only
    split
    · exact pySortedSet_sorted_lt _
    · exact pySortedSet_sorted_lt _

/-- A concrete text containing both a date range, loose single dates and
a time range, used to witness the range-priority theorem. -/
def c5SampleText : String :=
  "Jun 6/1 - 6/30 and 7/4 9:00 AM - 9:30 AM or 10:00 AM"

theorem extract_dates_times_range_priority_witness :
    pyFindallDateRange c5SampleText ≠ [] ∧
    pyFindallTimeRange c5SampleText ≠ [] ∧
    (extract_dates_times c5SampleText).1 =
      pySortedSet (pyFindallDateRange c5SampleText) ∧
    (extract_dates_times c5SampleText).2 =
      pySortedSet (pyFindallTimeRange c5SampleText) :=
  ⟨by decide, by decide,
    (extract_dates_times_range_priority c5SampleText).1 (by decide),
    (extract_dates_times_range_priority c5SampleText).2.2.1 (by decide)⟩

/-! ## String helpers for Python's `in`, `.lower()`, `.upper()` -/

/-- Does `needle` occur as a contiguous substring of `hay`?  (Python's
`needle in hay`.) -/
def containsSub (needle : List Char) : List Char → Bool
  | [] => needle.isEmpty
  | c :: tl => needle.isPrefixOf (c :: tl) || containsSub needle tl

/-- Python `needle in hay` on strings. -/
def strContains (hay needle : String) : Bool := containsSub needle.data hay.data

/-- Python `s.lower()` (ASCII fragment). -/
def lowerStr (s : String) : String := String.mk (s.data.map Char.toLower)

/-- Python `s.upper()` (ASCII fragment). -/
def upperStr (s : String) : String := String.mk (s.data.map Char.toUpper)

/-- Python `s.strip()`: drop whitespace from both ends. -/
def stripStr (s : String) : String :=
  String.mk (((s.data.dropWhile isSpaceChar).reverse.dropWhile isSpaceChar).reverse)

/-! ## Table model and `parse_table_by_headers` (monitor.py lines 80-140)

A table is modelled by the texts its locators would return: the header
cells (`thead tr th, tr th`), the rows under `tbody` and all `tr` rows
(each row a list of cell texts), the table's `inner_text`, and the text
of its nearest `div`/`section` ancestor (`none` when there is none). -/

structure Table where
  ths : List String
  tbodyRows : List (List String)
  allRows : List (List String)
  innerText : String
  parentText : Option String
deriving DecidableEq

/-- `cell_text(row, idx)`: text of `td:nth-child(idx+1)`, stripped;
empty when the cell does not exist. -/
def cellText (row : List String) (idx : Nat) : String := stripStr (row[idx]?.getD "")

/-- One data row of `parse_table_by_headers`: read the date and time
cells, run token extraction on their concatenation, and emit a session
when at least one token class is non-empty, substituting the `n/a`
sentinel for the other. -/
def rowToSession (datesCol timesCol : Nat) (row : List String) : Option Session :=
  let datesTxt := cellText row datesCol
  let timesTxt := cellText row timesCol
  let dt := extract_dates_times (datesTxt ++ " " ++ timesTxt)
  if dt.1.isEmpty && dt.2.isEmpty then none
  else some ⟨if dt.1.isEmpty then ["n/a"] else dt.1,
             if dt.2.isEmpty then ["n/a"] else dt.2⟩

/-- `parse_table_by_headers` (monitor.py lines 80-140): find the first
header cell containing `date` (resp. `time`) case-insensitively, fall
back to the hard-coded columns 4 and 5; take the `tbody` rows, else all
rows but the first when there are at least two, else all rows. -/
def parse_table_by_headers (tbl : Table) : List Session :=
  let datesCol :=
    match tbl.ths.findIdx? (fun h => strContains (lowerStr (stripStr h)) "date") with
    | some i => i
    | none => 4
  let timesCol :=
    match tbl.ths.findIdx? (fun h =>
        strContains (lowerStr (stripStr h)) "time" || strContains (lowerStr (stripStr h)) "times") with
    | some i => i
    | none => 5
  let rows :=
    if !tbl.tbodyRows.isEmpty then tbl.tbodyRows
    else if tbl.allRows.length > 1 then tbl.allRows.drop 1
    else tbl.allRows
  rows.filterMap (rowToSession datesCol timesCol)

/-! ## Page model

The browser state after navigating and clicking, as seen through the
locators `list_sessions_for_item` and `_find_heading_anywhere` use. -/

/-- A same-origin embedded frame as enumerated by `page.frames`. -/
structure SubFrame where
  url : String
  linkNames : List String
  textNodes : List String
deriving DecidableEq

/-- An `iframe` element on the page: its visibility, and the tables of
its content frame when `element_handle().content_frame()` succeeds. -/
structure IframeEl where
  visible : Bool
  frameTables : Option (List Table)
deriving DecidableEq

/-- A modal-candidate container (`[class*="modal"]`, `[role="dialog"]`,
...) with its visibility, `inner_text` and contained tables. -/
structure ModalEl where
  visible : Bool
  innerText : String
  tables : List Table
deriving DecidableEq

/-- The page state consumed by the extractor: accessible link names and
text nodes of the main document and of each embedded frame (for the
heading search), and the post-click tables, iframes, modal candidates.
`ariaGrids` records any ARIA grid/table role structures present and
`urlChanged` whether the click navigated; the source never consults
either. -/
structure PageState where
  linkNames : List String
  textNodes : List String
  frames : List SubFrame
  urlChanged : Bool
  pageTables : List Table
  iframes : List IframeEl
  modals : List ModalEl
  ariaGrids : List Table
deriving DecidableEq

/-- `_frames(page)` (monitor.py lines 58-66): the page itself, then every
frame whose URL contains `secure.rec1.com`. -/
def framesOf (p : PageState) : List (List String × List String) :=
  (p.linkNames, p.textNodes) ::
    (p.frames.filter (fun f => strContains f.url "secure.rec1.com")).map
      (fun f => (f.linkNames, f.textNodes))

/-- How `_find_heading_anywhere` found the heading. -/
inductive FoundHeading where
  | viaRoleLink (name : String)
  | viaText (txt : String)
deriving DecidableEq

/-- Does an element's accessible name / text match
`re.compile(re.escape(title), re.I)`, i.e. contain the title
case-insensitively? -/
def matchesTitle (title s : String) : Bool :=
  strContains (lowerStr s) (lowerStr title)

/-- One scope of `_find_heading_anywhere`: a role=link match wins,
otherwise a text match. -/
def findInScope (title : String) (scope : List String × List String) :
    Option FoundHeading :=
  match scope.1.find? (matchesTitle title) with
  | some nm => some (.viaRoleLink nm)
  | none =>
    match scope.2.find? (matchesTitle title) with
    | some tx => some (.viaText tx)
    | none => none

/-- `_find_heading_anywhere` (monitor.py lines 68-78): scan the page and
the same-origin frames in order; in each scope prefer the role=link
match, then the text match; `None` when nothing matches anywhere. -/
def find_heading_anywhere (p : PageState) (title : String) :
    Option FoundHeading :=
  (framesOf p).findSome? (findInScope title)

/-! ## `list_sessions_for_item` (monitor.py lines 142-385)

The function body after the click is a sequence of scans over page
structures, with the local `modal_found` assigned only on a successful
parse.  It is embedded with `modal_found` as an `Option Bool`:
`none` models the variable still being unbound, and reading it then is a
`NameError`.  The observable effects that the claims talk about — which
scans ran and whether the modal-dismissal block was reached — are
recorded in the result. -/

/-- Result of one `list_sessions_for_item` call: the returned (sorted)
sessions and which later steps of the body were actually executed. -/
structure ExtractOutcome where
  sessions : List Session
  ranPageTableScan : Bool
  ranModalScan : Bool
  attemptedDismissal : Bool
deriving DecidableEq

/-- The sort key `(";".join(dates), ";".join(times))` (line 383). -/
def sessKey (s : Session) : String × String :=
  (String.intercalate ";" s.dates, String.intercalate ";" s.times)

/-- Python tuple comparison is lexicographic. -/
def sessKeyLe (a b : Session) : Prop :=
  (sessKey a).1 < (sessKey b).1 ∨
    ((sessKey a).1 = (sessKey b).1 ∧ (sessKey a).2 ≤ (sessKey b).2)

instance : DecidableRel sessKeyLe := fun a b =>
  inferInstanceAs (Decidable ((sessKey a).1 < (sessKey b).1 ∨
    ((sessKey a).1 = (sessKey b).1 ∧ (sessKey a).2 ≤ (sessKey b).2)))

/-- `sessions.sort(key=...)` (line 383): a stable sort on the joined
keys. -/
def sortSessions (l : List Session) : List Session :=
  List.insertionSort sessKeyLe l

/-- The scan over one iframe's tables (monitor.py lines 210-228): the
first table whose text is longer than 100 characters, mentions `DATES`
and `TIMES` (upper-cased), and parses to a non-empty session list, is
taken; its parse extends `sessions`, sets `modal_found = True` and
breaks. -/
def iframeTableScan (tables : List Table) : List Session :=
  match tables with
  | [] => []
  | t :: rest =>
    if t.innerText.length > 100 &&
        strContains (upperStr t.innerText) "DATES" &&
        strContains (upperStr t.innerText) "TIMES" then
      let parsed := parse_table_by_headers t
      if parsed.isEmpty then iframeTableScan rest else parsed
    else iframeTableScan rest

/-- The loop over all iframes (monitor.py lines 192-233).  Returns the
sessions collected and the final state of `modal_found` (`none` =
still unbound).  When an accessible visible iframe yields no parsed
table, line 230 reads the unbound `modal_found`; the resulting
`NameError` is caught by the per-iframe handler (line 232) and the loop
moves on — observably identical to continuing, so it is embedded as a
plain continue.  On a successful parse `modal_found` is `True` and the
`break` on line 231 ends the loop. -/
def iframeLoop (ifs : List IframeEl) : List Session × Option Bool :=
  match ifs with
  | [] => ([], none)
  | i :: rest =>
    if i.visible then
      match i.frameTables with
      | some tables =>
        let got := iframeTableScan tables
        if got.isEmpty then iframeLoop rest else (got, some true)
      | none => iframeLoop rest
    else iframeLoop rest

/-- Strategy 2 (monitor.py lines 240-287): scan every table on the page;
skip tables with fewer than 100 characters of text or without both a
date and a time keyword; when a `div`/`section` ancestor exists, skip
tables whose ancestor text does not mention the title; the first table
whose parse is non-empty wins. -/
def pageTableLoop (title : String) (tables : List Table) :
    List Session × Bool :=
  match tables with
  | [] => ([], false)
  | t :: rest =>
    if t.innerText.length < 100 then pageTableLoop title rest
    else
      let up := upperStr t.innerText
      if (strContains up "DATES" || strContains up "DATE") &&
          (strContains up "TIMES" || strContains up "TIME") then
        match t.parentText with
        | some ptxt =>
          if strContains (lowerStr ptxt) (lowerStr title) then
            let parsed := parse_table_by_headers t
            if parsed.isEmpty then pageTableLoop title rest else (parsed, true)
          else pageTableLoop title rest
        | none =>
          let parsed := parse_table_by_headers t
          if parsed.isEmpty then pageTableLoop title rest else (parsed, true)
      else pageTableLoop title rest

/-- Strategy 3 (monitor.py lines 290-350): scan the modal candidates;
a candidate must be visible, contain the title, not look like the
navigation panel in its first 500 characters, and have at least 300
characters; when token extraction on its text yields both dates and
times, parse its first table if any parses non-empty, else fall back to
one session made of the extracted tokens. -/
def modalLoop (title : String) (ms : List ModalEl) : List Session × Bool :=
  match ms with
  | [] => ([], false)
  | m :: rest =>
    if !m.visible then modalLoop title rest
    else if !strContains (lowerStr m.innerText) (lowerStr title) then
      modalLoop title rest
    else
      let head500 := String.mk (m.innerText.data.take 500)
      if strContains head500 "Clear All Filters" ||
          strContains head500 "Log In with Email" then modalLoop title rest
      else if m.innerText.length < 300 then modalLoop title rest
      else
        let dt := extract_dates_times m.innerText
        if !dt.1.isEmpty && !dt.2.isEmpty then
          match m.tables.head? with
          | some tbl =>
            let parsed := parse_table_by_headers tbl
            if parsed.isEmpty then ([⟨dt.1, dt.2⟩], true) else (parsed, true)
          | none => ([⟨dt.1, dt.2⟩], true)
        else modalLoop title rest

/-- `list_sessions_for_item` (monitor.py lines 142-385).  When the
heading is not found the function returns early with no sessions.
Otherwise the click is assumed to succeed and the iframe loop runs.
If it ends with `modal_found` still unbound, the read on line 236
(`if not modal_found and ...`) raises `NameError`, which the enclosing
handler on line 378 swallows; control then falls through to the final
sort and return, so the page-table scan, the modal scan and the
modal-dismissal block (lines 362-376) are all skipped.  When
`modal_found` is bound, the remaining strategies run exactly when it is
`False`, and the dismissal block is always reached. -/
def list_sessions_for_item (p : PageState) (title : String) : ExtractOutcome :=
  match find_heading_anywhere p title with
  | none => ⟨[], false, false, false⟩
  | some _ =>
    let ifRes := iframeLoop p.iframes
    match ifRes.2 with
    | none => ⟨sortSessions ifRes.1, false, false, false⟩
    | some mf =>
      if !mf then
        let s2 := pageTableLoop title p.pageTables
        if s2.2 then ⟨sortSessions (ifRes.1 ++ s2.1), true, false, true⟩
        else
          let s3 := modalLoop title p.modals
          ⟨sortSessions (ifRes.1 ++ s2.1 ++ s3.1), true, true, true⟩
      else ⟨sortSessions ifRes.1, false, false, true⟩

/-! ## Concrete states for the extractor claims -/

/-- The first tracked title. -/
def titleA : String := "Swim Lesson Level 1: Baby Pups & Parent Seals"

/-- The second tracked title. -/
def titleB : String := "Swim Lesson Level 2: Sea Horses"

/-- A realistic session table following the heading: correct headers,
one data row, more than 100 characters of text mentioning DATES and
TIMES, inside an ancestor that mentions the title. -/
def cexTable : Table where
  ths := ["SESSION", "AGES", "DAYS", "LOCATION", "DATES", "TIMES"]
  tbodyRows := [["Summer Session A", "3-5 yrs", "Mon-Fri", "Main Pool",
    "6/1 - 6/30", "9:00 AM - 9:30 AM"]]
  allRows := [["SESSION", "AGES", "DAYS", "LOCATION", "DATES", "TIMES"],
    ["Summer Session A", "3-5 yrs", "Mon-Fri", "Main Pool",
      "6/1 - 6/30", "9:00 AM - 9:30 AM"]]
  innerText := "SESSION AGES DAYS LOCATION DATES TIMES Summer Session A 3-5 yrs Mon-Fri Main Pool 6/1 - 6/30 9:00 AM - 9:30 AM"
  parentText := some "Swim Lesson Level 1: Baby Pups & Parent Seals schedule"

/-- A stand-in for an ARIA grid/table role structure present on the
page. -/
def ariaGridTable : Table where
  ths := ["DATES", "TIMES"]
  tbodyRows := [["7/1 - 7/31", "10:00 AM - 10:30 AM"]]
  allRows := [["DATES", "TIMES"], ["7/1 - 7/31", "10:00 AM - 10:30 AM"]]
  innerText := "DATES TIMES 7/1 - 7/31 10:00 AM - 10:30 AM"
  parentText := none

/-- Page state for claim C3: the heading is present, the click did not
navigate, a real parsable table and an ARIA grid structure are both
present, and there are no iframes. -/
def cexC3 : PageState where
  linkNames := [titleA]
  textNodes := []
  frames := []
  urlChanged := false
  pageTables := [cexTable]
  iframes := []
  modals := []
  ariaGrids := [ariaGridTable]

/-- Page state for claim C4's witness: heading present via a text node,
one iframe that is not visible. -/
def cexC4 : PageState where
  linkNames := []
  textNodes := ["Swim Lesson Level 2: Sea Horses - register now"]
  frames := []
  urlChanged := false
  pageTables := [cexTable]
  iframes := [⟨false, none⟩]
  modals := []
  ariaGrids := []

/-- Page state for claim C7: heading present, one visible iframe whose
content frame is inaccessible, and a visible modal on the page. -/
def cexC7 : PageState where
  linkNames := [titleB]
  textNodes := []
  frames := []
  urlChanged := false
  pageTables := []
  iframes := [⟨true, none⟩]
  modals := [⟨true, "Swim Lesson Level 2: Sea Horses dialog", []⟩]
  ariaGrids := []

/-- The text preceding the first colon of a label (the relaxed match the
spec describes for `Category: Variant` titles). -/
def labelBeforeColon (title : String) : String :=
  String.mk (title.data.takeWhile (· ≠ ':'))

/-- Page state for claim C8: no element matches the full label by role
or text, but a text node does contain the label's before-colon prefix. -/
def cexC8 : PageState where
  linkNames := []
  textNodes := ["Swim Lesson Level 1 registration open"]
  frames := []
  urlChanged := false
  pageTables := []
  iframes := []
  modals := []
  ariaGrids := []

/-- Page state for claim C8's amended-claim witness: an accessible link
whose name contains the tracked label. -/
def cexC8w : PageState where
  linkNames := ["Program: Swim Lesson Level 2: Sea Horses"]
  textNodes := []
  frames := []
  urlChanged := false
  pageTables := []
  iframes := []
  modals := []
  ariaGrids := []

/-! ## Claims C3, C4, C7, C8 -/

/-- Claim C3, counterexample: in a post-click state with an unchanged
URL, a real parsable table after the heading and an ARIA grid structure
both present (and no iframes), the extractor does not return the real
table's parse — it returns no sessions at all, because reading the
unbound `modal_found` aborts the strategy chain before the page-table
scan. -/
theorem c3_counterexample :
    cexC3.urlChanged = false ∧
    find_heading_anywhere cexC3 titleA ≠ none ∧
    cexC3.pageTables = [cexTable] ∧
    cexC3.ariaGrids ≠ [] ∧
    parse_table_by_headers cexTable ≠ [] ∧
    (list_sessions_for_item cexC3 titleA).sessions ≠
      sortSessions (parse_table_by_headers cexTable) := by
  decide

/-- Claim C3, amended: after the click the code only ever consults
tables inside visible iframes; the page-wide table scan and the modal
scan are guarded by the unbound `modal_found`, so whenever the heading
was found and there are no iframes the function returns no sessions and
runs no further strategy — regardless of any real table or ARIA
structure present. -/
theorem c3_amended_no_table_strategy (p : PageState) (title : String)
    (hfound : find_heading_anywhere p title ≠ none)
    (hif : p.iframes = []) :
    list_sessions_for_item p title = ⟨[], false, false, false⟩ := by
  unfold list_sessions_for_item
  cases hh : find_heading_anywhere p title with
  | none => exact absurd hh hfound
  | some f =>
    have hL : iframeLoop p.iframes = ([], none) := by rw [hif]; rfl
    simp [hL]
    rfl

theorem c3_amended_witness :
    find_heading_anywhere cexC3 titleA ≠ none ∧
    list_sessions_for_item cexC3 titleA = ⟨[], false, false, false⟩ :=
  ⟨by decide, c3_amended_no_table_strategy cexC3 titleA (by decide) rfl⟩

/-- Helper: when no iframe is visible the iframe loop collects nothing
and leaves `modal_found` unbound. -/
lemma iframeLoop_of_invisible :
    ∀ ifs : List IframeEl, (∀ i ∈ ifs, i.visible = false) →
      iframeLoop ifs = ([], none) := by
  intro ifs
  induction ifs with
  | nil => intro _; rfl
  | cons i rest ih =>
    intro h
    have hi : i.visible = false := h i (List.mem_cons_self i rest)
    have hr := ih (fun j hj => h j (List.mem_cons_of_mem i hj))
    simp [iframeLoop, hi, hr]

/-- Claim C4: whenever the iframe loop finishes without a successful
iframe-table parse (`modal_found` still unbound) — in particular when
no iframe is visible — the read of `modal_found` on line 236 raises a
`NameError` that the enclosing handler swallows, so the page-table
strategy, the modal strategy and the modal-dismissal step are all
skipped and the function returns only the sessions collected so far. -/
theorem c4_unbound_modal_found (p : PageState) (title : String)
    (hfound : find_heading_anywhere p title ≠ none) :
    ((iframeLoop p.iframes).2 = none →
      list_sessions_for_item p title =
        ⟨sortSessions (iframeLoop p.iframes).1, false, false, false⟩) ∧
    ((∀ i ∈ p.iframes, i.visible = false) →
      (iframeLoop p.iframes).2 = none) := by
  constructor
  · intro h2
    unfold list_sessions_for_item
    cases hh : find_heading_anywhere p title with
    | none => exact absurd hh hfound
    | some f => simp [h2]
  · intro hv
    rw [iframeLoop_of_invisible p.iframes hv]

theorem c4_witness :
    (∀ i ∈ cexC4.iframes, i.visible = false) ∧
    (iframeLoop cexC4.iframes).2 = none ∧
    list_sessions_for_item cexC4 titleB =
      ⟨sortSessions (iframeLoop cexC4.iframes).1, false, false, false⟩ :=
  ⟨by decide,
    (c4_unbound_modal_found cexC4 titleB (by decide)).2 (by decide),
    (c4_unbound_modal_found cexC4 titleB (by decide)).1
      ((c4_unbound_modal_found cexC4 titleB (by decide)).2 (by decide))⟩

/-- Claim C7: on the concrete attempt `cexC7` the heading is found and a
visible modal is open, yet the function never reaches the dismissal
block (neither Escape nor the close button is attempted), because the
unbound `modal_found` aborts the body first — dismissal is not attempted
on every extraction attempt. -/
theorem c7_dismissal_skipped :
    find_heading_anywhere cexC7 titleB ≠ none ∧
    (cexC7.modals.any (fun m => m.visible)) = true ∧
    (list_sessions_for_item cexC7 titleB).attemptedDismissal = false := by
  decide

/-- Claim C8, counterexample: a text node contains the label's
before-colon prefix, yet the locate step returns nothing — there is no
relaxed colon-prefix fallback (and no scroll-and-retry) in
`_find_heading_anywhere`. -/
theorem c8_counterexample :
    (cexC8.textNodes.any (fun s => matchesTitle (labelBeforeColon titleA) s))
        = true ∧
    find_heading_anywhere cexC8 titleA = none := by
  decide

/-- Claim C8, amended: within each scope (the main document first, then
the same-domain frames) the locate step prefers an accessible-role link
whose name contains the label case-insensitively, then an element whose
text contains it; when neither matches in any scope it returns `None`
with no colon-prefix fallback and no scroll retry (the fixed 15-step
scroll happens unconditionally while opening the page, before any
search). -/
theorem c8_two_tier_only (p : PageState) (title : String) :
    ((∀ sc ∈ framesOf p, sc.1.find? (matchesTitle title) = none ∧
        sc.2.find? (matchesTitle title) = none) →
      find_heading_anywhere p title = none) ∧
    (∀ nm, p.linkNames.find? (matchesTitle title) = some nm →
      find_heading_anywhere p title = some (.viaRoleLink nm)) := by
  constructor
  · intro h
    unfold find_heading_anywhere
    rw [List.findSome?_eq_none_iff]
    intro sc hsc
    have := h sc hsc
    unfold findInScope
    rw [this.1, this.2]
  · intro nm hnm
    unfold find_heading_anywhere framesOf
    rw [List.findSome?_cons]
    unfold findInScope
    simp only
    rw [hnm]

theorem c8_two_tier_witness :
    find_heading_anywhere cexC8 titleB = none ∧
    find_heading_anywhere cexC8w titleB =
      some (.viaRoleLink "Program: Swim Lesson Level 2: Sea Horses") :=
  ⟨(c8_two_tier_only cexC8 titleB).1 (by decide),
    (c8_two_tier_only cexC8w titleB).2 _ (by decide)⟩

/-! ## Snapshot differ (monitor.py lines 415-453) -/

/-- The `n/a` sentinel record. -/
def naRecord : Session := ⟨["n/a"], ["n/a"]⟩

/-- One session record counts as real when its dates list is truthy and
different from `["n/a"]`, or likewise its times list (monitor.py line
428). -/
def realSession (s : Session) : Bool :=
  (!s.dates.isEmpty && !(s.dates == ["n/a"])) ||
    (!s.times.isEmpty && !(s.times == ["n/a"]))

/-- `_has_real_sessions` (monitor.py lines 426-430). -/
def _has_real_sessions (it : Item) : Bool := it.sessions.any realSession

/-- Lookup in the dict built by `{i["title"]: i for i in items}` with a
default: Python keeps the last entry for a duplicated key. -/
def pyDictGet (t : String) (items : List Item) (dflt : Item) : Item :=
  match items.reverse.find? (fun i => i.title == t) with
  | some it => it
  | none => dflt

/-- Python's `a or b` on optional strings: `a` unless it is `None` or
empty. -/
def pyOrStr (a b : Option String) : Option String :=
  match a with
  | some s => if s = "" then b else some s
  | none => b

/-- A `changed` entry (monitor.py lines 447-452). -/
structure ChangedEntry where
  title : String
  url : Option String
  old_sessions : List Session
  new_sessions : List Session
deriving DecidableEq

/-- The body of the `for t in TARGET_TITLES` loop of `diff_items`
(monitor.py lines 436-452), acting on the accumulated
`(added, removed, changed)` lists. -/
def diffStep (old_items new_items : List Item)
    (acc : List Item × List Item × List ChangedEntry) (t : String) :
    List Item × List Item × List ChangedEntry :=
  let old := pyDictGet t old_items ⟨t, none, []⟩
  let nw := pyDictGet t new_items ⟨t, none, []⟩
  if !_has_real_sessions old && _has_real_sessions nw then
    (acc.1 ++ [nw], acc.2.1, acc.2.2)
  else if _has_real_sessions old && !_has_real_sessions nw then
    (acc.1, acc.2.1 ++ [old], acc.2.2)
  else if old.sessions = nw.sessions then acc
  else
    (acc.1, acc.2.1,
      acc.2.2 ++ [⟨t, pyOrStr nw.url old.url, old.sessions, nw.sessions⟩])

/-- `diff_items` (monitor.py lines 432-453). -/
def diff_items (old_items new_items : List Item) :
    List Item × List Item × List ChangedEntry :=
  TARGET_TITLES.foldl (diffStep old_items new_items) ([], [], [])

/-! Spec-side per-label classification, following the claim's words:
`added` when not present before and present now, `removed` when present
before and not now, otherwise `changed` (carrying both session lists
verbatim) exactly when the sorted session lists differ, otherwise
nothing. -/

/-- Classification of one tracked label as `added`, per the spec. -/
def specAddedAt (old_items new_items : List Item) (t : String) : Option Item :=
  let old := pyDictGet t old_items ⟨t, none, []⟩
  let nw := pyDictGet t new_items ⟨t, none, []⟩
  if !_has_real_sessions old && _has_real_sessions nw then some nw else none

/-- Classification of one tracked label as `removed`, per the spec. -/
def specRemovedAt (old_items new_items : List Item) (t : String) : Option Item :=
  let old := pyDictGet t old_items ⟨t, none, []⟩
  let nw := pyDictGet t new_items ⟨t, none, []⟩
  if !_has_real_sessions old && _has_real_sessions nw then none
  else if _has_real_sessions old && !_has_real_sessions nw then some old
  else none

/-- Classification of one tracked label as `changed`, per the spec. -/
def specChangedAt (old_items new_items : List Item) (t : String) :
    Option ChangedEntry :=
  let old := pyDictGet t old_items ⟨t, none, []⟩
  let nw := pyDictGet t new_items ⟨t, none, []⟩
  if !_has_real_sessions old && _has_real_sessions nw then none
  else if _has_real_sessions old && !_has_real_sessions nw then none
  else if old.sessions = nw.sessions then none
  else some ⟨t, pyOrStr nw.url old.url, old.sessions, nw.sessions⟩

/-- The fold underlying `diff_items` accumulates exactly the per-label
classifications, in `TARGET_TITLES` order. -/
lemma foldl_diffStep (o n : List Item) (ts : List String)
    (acc : List Item × List Item × List ChangedEntry) :
    ts.foldl (diffStep o n) acc =
      (acc.1 ++ ts.filterMap (specAddedAt o n),
       acc.2.1 ++ ts.filterMap (specRemovedAt o n),
       acc.2.2 ++ ts.filterMap (specChangedAt o n)) := by
  induction ts generalizing acc with
  | nil => simp
  | cons t ts ih =>
    rw [List.foldl_cons, ih]
    simp only [diffStep, specAddedAt, specRemovedAt, specChangedAt,
      List.filterMap_cons]
    split_ifs <;> simp

/-- `diff_items` as the three per-label classification maps. -/
lemma diff_items_filterMap (o n : List Item) :
    diff_items o n =
      (TARGET_TITLES.filterMap (specAddedAt o n),
       TARGET_TITLES.filterMap (specRemovedAt o n),
       TARGET_TITLES.filterMap (specChangedAt o n)) := by
  unfold diff_items
  rw [foldl_diffStep]
  simp

/-- Claim C1: for every tracked label the differ classifies by priority
— not present before and present now gives `added`, present before and
absent now gives `removed`, otherwise a difference of the session lists
gives `changed` carrying both lists verbatim, otherwise nothing — and
`diff_items` returns exactly these per-label classifications. -/
theorem diff_items_classification (old_items new_items : List Item) :
    diff_items old_items new_items =
      (TARGET_TITLES.filterMap (specAddedAt old_items new_items),
       TARGET_TITLES.filterMap (specRemovedAt old_items new_items),
       TARGET_TITLES.filterMap (specChangedAt old_items new_items)) :=
  diff_items_filterMap old_items new_items

/-- Claim C9: diffing a snapshot list against itself classifies
nothing. -/
theorem diff_items_self (items : List Item) :
    diff_items items items = ([], [], []) := by
  rw [diff_items_filterMap]
  have ha : ∀ t, specAddedAt items items t = none := by
    intro t
    unfold specAddedAt
    cases h : _has_real_sessions (pyDictGet t items ⟨t, none, []⟩) <;> simp [h]
  have hr : ∀ t, specRemovedAt items items t = none := by
    intro t
    unfold specRemovedAt
    cases h : _has_real_sessions (pyDictGet t items ⟨t, none, []⟩) <;> simp [h]
  have hc : ∀ t, specChangedAt items items t = none := by
    intro t
    unfold specChangedAt
    cases h : _has_real_sessions (pyDictGet t items ⟨t, none, []⟩) <;> simp [h]
  rw [List.filterMap_eq_nil_iff.mpr (fun t _ => ha t),
    List.filterMap_eq_nil_iff.mpr (fun t _ => hr t),
    List.filterMap_eq_nil_iff.mpr (fun t _ => hc t)]

/-! ## Claim C2 -/

/-- Previous snapshot whose only item holds just the sentinel record. -/
def c2OldNa : List Item := [⟨titleA, some "inline:swim-1", [naRecord]⟩]

/-- The same snapshot with the sentinel list replaced by the empty
list. -/
def c2OldNil : List Item := [⟨titleA, some "inline:swim-1", []⟩]

/-- Current snapshot, also holding just the sentinel record. -/
def c2New : List Item := [⟨titleA, some "inline:swim-1", [naRecord]⟩]

/-- Claim C2, counterexample: replacing the `[n/a]` session list by the
empty list in the previous snapshot does change the diff's output for
that label — the `changed` component flips from empty to non-empty,
because the `changed` check compares the session lists verbatim. -/
theorem c2_counterexample :
    diff_items c2OldNa c2New ≠ diff_items c2OldNil c2New ∧
    (diff_items c2OldNa c2New).2.2 = [] ∧
    (diff_items c2OldNil c2New).2.2 ≠ [] := by
  decide

/-- Replace the session list of every item titled `t`. -/
def setSessions (t : String) (ss : List Session) (items : List Item) :
    List Item :=
  items.map (fun i => if i.title = t then { i with sessions := ss } else i)

lemma setSessions_keeps_title (t : String) (ss : List Session) (i : Item) :
    ((if i.title = t then { i with sessions := ss } else i) : Item).title
      = i.title := by
  split <;> rfl

lemma find?_setSessions (t t' : String) (ss : List Session)
    (items : List Item) :
    (setSessions t ss items).reverse.find? (fun i => i.title == t') =
      (items.reverse.find? (fun i => i.title == t')).map
        (fun i => if i.title = t then { i with sessions := ss } else i) := by
  unfold setSessions
  rw [← List.map_reverse, List.find?_map]
  have hp : ((fun i : Item => i.title == t') ∘ fun i : Item =>
      if i.title = t then { i with sessions := ss } else i) =
      fun i : Item => i.title == t' := by
    funext i
    simp [Function.comp, setSessions_keeps_title]
  rw [hp]

lemma pyDictGet_set_ne (t t' : String) (ss : List Session)
    (items : List Item) (dflt : Item) (h : t' ≠ t) :
    pyDictGet t' (setSessions t ss items) dflt = pyDictGet t' items dflt := by
  unfold pyDictGet
  rw [find?_setSessions]
  cases hf : items.reverse.find? (fun i => i.title == t') with
  | none => rfl
  | some it =>
    have hit : it.title = t' := by simpa using List.find?_some hf
    simp [hit, h]

lemma pyDictGet_set_eq (t : String) (ss : List Session)
    (items : List Item) (dflt : Item) :
    pyDictGet t (setSessions t ss items) dflt =
      match items.reverse.find? (fun i => i.title == t) with
      | some it => { it with sessions := ss }
      | none => dflt := by
  unfold pyDictGet
  rw [find?_setSessions]
  cases hf : items.reverse.find? (fun i => i.title == t) with
  | none => rfl
  | some it =>
    have hit : it.title = t := by simpa using List.find?_some hf
    simp [hit]

lemma hasReal_mk (a : String) (b : Option String) (ss : List Session) :
    _has_real_sessions ⟨a, b, ss⟩ = ss.any realSession := rfl

lemma any_realSession_false (s : List Session)
    (h : s = [] ∨ s = [naRecord]) : s.any realSession = false := by
  rcases h with h | h <;> subst h <;> decide

lemma spec_added_removed_set_old (o n : List Item) (t : String)
    (s1 s2 : List Session) (h1 : s1.any realSession = false)
    (h2 : s2.any realSession = false) :
    specAddedAt (setSessions t s1 o) n = specAddedAt (setSessions t s2 o) n ∧
    specRemovedAt (setSessions t s1 o) n
      = specRemovedAt (setSessions t s2 o) n := by
  constructor <;>
  · funext t'
    by_cases ht : t' = t
    · subst ht
      simp only [specAddedAt, specRemovedAt]
      rw [pyDictGet_set_eq, pyDictGet_set_eq]
      cases hf : o.reverse.find? (fun i => i.title == t') with
      | none => rfl
      | some it =>
        simp [hasReal_mk, h1, h2]
    · simp only [specAddedAt, specRemovedAt]
      rw [pyDictGet_set_ne _ _ _ _ _ ht, pyDictGet_set_ne _ _ _ _ _ ht]

lemma spec_added_removed_set_new (o n : List Item) (t : String)
    (s1 s2 : List Session) (h1 : s1.any realSession = false)
    (h2 : s2.any realSession = false) :
    specAddedAt o (setSessions t s1 n) = specAddedAt o (setSessions t s2 n) ∧
    specRemovedAt o (setSessions t s1 n)
      = specRemovedAt o (setSessions t s2 n) := by
  constructor <;>
  · funext t'
    by_cases ht : t' = t
    · subst ht
      simp only [specAddedAt, specRemovedAt]
      rw [pyDictGet_set_eq, pyDictGet_set_eq]
      cases hf : n.reverse.find? (fun i => i.title == t') with
      | none => rfl
      | some it =>
        simp [hasReal_mk, h1, h2]
    · simp only [specAddedAt, specRemovedAt]
      rw [pyDictGet_set_ne _ _ _ _ _ ht, pyDictGet_set_ne _ _ _ _ _ ht]

/-- Claim C2, amended: a session list that is empty or exactly
`[the n/a record]` is interchangeable for the added/removed
classification — replacing one by the other in either input leaves the
diff's `added` and `removed` components unchanged — but not for the
`changed` classification, which compares the lists verbatim. -/
theorem diff_items_na_presence_only (o n : List Item) (t : String)
    (s1 s2 : List Session) (h1 : s1 = [] ∨ s1 = [naRecord])
    (h2 : s2 = [] ∨ s2 = [naRecord]) :
    (diff_items (setSessions t s1 o) n).1
        = (diff_items (setSessions t s2 o) n).1 ∧
    (diff_items (setSessions t s1 o) n).2.1
        = (diff_items (setSessions t s2 o) n).2.1 ∧
    (diff_items o (setSessions t s1 n)).1
        = (diff_items o (setSessions t s2 n)).1 ∧
    (diff_items o (setSessions t s1 n)).2.1
        = (diff_items o (setSessions t s2 n)).2.1 := by
  have e1 := any_realSession_false s1 h1
  have e2 := any_realSession_false s2 h2
  have ho := spec_added_removed_set_old o n t s1 s2 e1 e2
  have hn := spec_added_removed_set_new o n t s1 s2 e1 e2
  refine ⟨?_, ?_, ?_, ?_⟩ <;>
    rw [diff_items_filterMap, diff_items_filterMap]
  · rw [ho.1]
  · rw [ho.2]
  · rw [hn.1]
  · rw [hn.2]

theorem diff_items_na_presence_only_witness :
    (diff_items (setSessions titleA [] c2OldNa) c2New).1
        = (diff_items (setSessions titleA [naRecord] c2OldNa) c2New).1 ∧
    (diff_items (setSessions titleA [] c2OldNa) c2New).2.1
        = (diff_items (setSessions titleA [naRecord] c2OldNa) c2New).2.1 ∧
    (diff_items c2OldNa (setSessions titleA [] c2New)).1
        = (diff_items c2OldNa (setSessions titleA [naRecord] c2New)).1 ∧
    (diff_items c2OldNa (setSessions titleA [] c2New)).2.1
        = (diff_items c2OldNa (setSessions titleA [naRecord] c2New)).2.1 :=
  diff_items_na_presence_only c2OldNa c2New titleA [] [naRecord]
    (Or.inl rfl) (Or.inr rfl)

/-! ## `main` (monitor.py lines 504-520)

The whole run is wrapped in one `try`.  A top-level failure is modelled
as an exception escaping `get_items_with_sessions` (or any earlier step
of the body): in that case the `except` branch prints a synthesized
error report and exits 0, and `save_baseline` was never reached.  On
success the report is printed, the baseline is saved as
`{"items": items, "last_updated": utcnow}`, and the process exits 1
exactly when some classification list is non-empty (otherwise it falls
off the end of `main` and exits 0). -/

/-- The persisted baseline `{ items, last_updated }`. -/
structure Baseline where
  items : List Item
  last_updated : Option String
deriving DecidableEq

/-- Outcome of the extraction phase: the computed snapshot items, or a
top-level exception. -/
inductive RunOutcome where
  | ok (items : List Item)
  | err (msg : String)
deriving DecidableEq

/-- What the run printed: the normal report (with the diff results) or
the synthesized error report. -/
inductive PrintedReport where
  | report (items added removed : List Item) (changed : List ChangedEntry)
  | errorReport (msg : String)
deriving DecidableEq

/-- Observable result of one `main` run. -/
structure MainResult where
  exitCode : Nat
  printed : PrintedReport
  savedBaseline : Option Baseline
deriving DecidableEq

/-- `main` (monitor.py lines 504-520), over the extraction outcome, the
loaded baseline and the current timestamp. -/
def main_model (outcome : RunOutcome) (baseline : Baseline) (now : String) :
    MainResult :=
  match outcome with
  | .ok items =>
    let d := diff_items baseline.items items
    { exitCode := if !d.1.isEmpty || !d.2.1.isEmpty || !d.2.2.isEmpty then 1 else 0
      printed := .report items d.1 d.2.1 d.2.2
      savedBaseline := some ⟨items, some now⟩ }
  | .err msg =>
    { exitCode := 0
      printed := .errorReport msg
      savedBaseline := none }

/-- Claim C6: the exit status is 0 on a successful run that classified
nothing, 1 on a successful run with at least one added/removed/changed
label, and 0 on a top-level failure, which still prints a synthesized
error report. -/
theorem main_model_exit_codes (outcome : RunOutcome) (baseline : Baseline)
    (now : String) (msg : String) :
    (main_model outcome baseline now).exitCode =
      (match outcome with
       | .ok items =>
         if diff_items baseline.items items = ([], [], []) then 0 else 1
       | .err _ => 0) ∧
    (main_model (.err msg) baseline now).printed = .errorReport msg ∧
    (main_model (.err msg) baseline now).exitCode = 0 := by
  refine ⟨?_, rfl, rfl⟩
  cases outcome with
  | err m => rfl
  | ok items =>
    rcases hd : diff_items baseline.items items with ⟨a, r, c⟩
    simp only [main_model, hd]
    by_cases ha : a = [] <;> by_cases hr : r = [] <;> by_cases hc : c = [] <;>
      simp [ha, hr, hc, Prod.ext_iff]

/-- Claim C10, counterexample: on a top-level failure the baseline file
is not rewritten at all — `save_baseline` is never reached — so the
write does not happen "regardless of success or failure". -/
theorem main_model_no_save_on_error :
    (main_model (.err "net::ERR_TIMED_OUT at catalog page")
        ⟨[⟨titleA, some "inline:swim-1", [naRecord]⟩], some "2025-06-01T00:00:00"⟩
        "2025-06-02T00:00:00").savedBaseline = none := rfl

/-- Claim C10, amended: at the end of every successful run the baseline
is replaced wholesale with exactly the just-computed snapshot set and
the fresh timestamp — independent of the prior baseline, which is never
merged in — while on a top-level failure no baseline write happens at
all. -/
theorem main_model_save_wholesale (items : List Item) (baseline : Baseline)
    (now : String) (msg : String) :
    (main_model (.ok items) baseline now).savedBaseline
        = some ⟨items, some now⟩ ∧
    (main_model (.err msg) baseline now).savedBaseline = none :=
  ⟨rfl, rfl⟩

end Monitor
